import Mathlib

/-!
Shallow embedding of the Maastricht cafe list web application
(source files: main.py and forms.py).

The data model mirrors the three SQLAlchemy tables (main.py 47 to 91),
the authorization decorators admin_only (98 to 107) and
user_can_edit_cafe (110 to 121), and the request handlers show_cafe
(193 to 211), add_new_cafe (215 to 233), edit_cafe (237 to 259),
delete_cafe (263 to 269) and contact / send_email (282 to 298).
Machine-level details of Flask, WTForms, flask_login and SQLAlchemy are
embedded only where the handlers observable behaviour depends on them;
each such embedding is documented at its definition.
-/

namespace CafeSite

/-- A row of the users table (main.py 66 to 76): integer primary key,
email, password hash and display name. -/
structure User where
  id : Nat
  email : String
  password : String
  name : String
deriving DecidableEq

/-- A row of the cafelist table (main.py 47 to 62): contributor_id is a
nullable foreign key into users, contributor_name a nullable denormalized
display name, img_url a nullable string column; name, summary, date,
body and rating are not nullable. -/
structure Cafe where
  id : Nat
  contributor_id : Option Nat
  contributor_name : Option String
  name : String
  summary : String
  date : String
  body : String
  img_url : Option String
  rating : Int
deriving DecidableEq

/-- A row of the comments table (main.py 80 to 90): text plus nullable
foreign keys author_id (users) and cafe_id (cafelist). -/
structure Comment where
  id : Nat
  text : String
  author_id : Option Nat
  cafe_id : Option Nat
deriving DecidableEq

/-- The relational store: the three tables auto-created at startup
(main.py 93 to 94), each as a list of rows in insertion order. -/
structure DB where
  users : List User
  cafes : List Cafe
  comments : List Comment
deriving DecidableEq

/-- The flask_login current_user of a request: either an authenticated
User row or the anonymous-session placeholder object. -/
inductive CurrentUser where
  | anonymous
  | user (u : User)
deriving DecidableEq

/-- A Python runtime error relevant to these handlers: an AttributeError
naming the attribute whose lookup failed. -/
inductive PyError where
  | attributeError (attr : String)
deriving DecidableEq

/-- Embeds the attribute read current_user.id (main.py 102, 116).
An authenticated current_user is a User model instance and yields its
integer primary key; the anonymous placeholder (flask_login
AnonymousUserMixin) declares no id attribute, so the lookup raises
AttributeError. -/
def CurrentUser.id_attr : CurrentUser → Except PyError Nat
  | .anonymous => .error (.attributeError "id")
  | .user u => .ok u.id

/-- Embeds the Python equality current_user == cafe.contributor used (negated)
at main.py 116. flask_login UserMixin compares two user objects by get_id,
i.e. by primary key; the anonymous placeholder is not a UserMixin and
compares unequal to every User and to None; a User compares unequal
to None. -/
def CurrentUser.eqContributor : CurrentUser → Option User → Bool
  | .anonymous, _ => false
  | .user _, none => false
  | .user u, some v => u.id == v.id

/-- Outcome of an authorization decorator body: fall through to the wrapped
route function, or abort(403). -/
inductive AuthDecision where
  | allow
  | forbidden403
deriving DecidableEq

/-- Embeds admin_only (main.py 98 to 107): evaluates current_user.id
(an AttributeError for an anonymous session propagates), aborts 403 when
the id differs from 1, otherwise continues into the route function. -/
def admin_only_check (cu : CurrentUser) : Except PyError AuthDecision :=
  match cu.id_attr with
  | .error e => .error e
  | .ok i => if i ≠ 1 then .ok .forbidden403 else .ok .allow

/-- Embeds the guard of user_can_edit_cafe (main.py 110 to 121):
if current_user != cafe.contributor or current_user.id != 1 then abort(403).
The Python or is short-circuiting, so current_user.id is only read when the
first disjunct is false, i.e. when current_user equals the contributor
(hence is an authenticated User and the id read cannot fail). -/
def user_can_edit_cafe_check (cu : CurrentUser) (contributor : Option User) :
    Except PyError AuthDecision :=
  if cu.eqContributor contributor = false then .ok .forbidden403
  else
    match cu.id_attr with
    | .error e => .error e
    | .ok i => if i ≠ 1 then .ok .forbidden403 else .ok .allow

/-- Embeds the WTForms DataRequired validator on a string-valued field
(forms.py): the submitted data must be non-empty. (The library validator
also rejects all-whitespace data; no claim depends on that boundary.) -/
def dataRequiredStr (s : String) : Bool := s != ""

/-- Embeds DataRequired on the IntegerField rating (forms.py 11 to 13):
none models a missing or non-integer submission (coercion failure), and
the validator tests Python falsiness, so the integer 0 also fails it. -/
def dataRequiredInt : Option Int → Bool
  | none => false
  | some n => n != 0

/-- Embeds NumberRange(min, max) (forms.py 13): data must be present and
lie in the inclusive range. -/
def numberRange (lo hi : Int) : Option Int → Bool
  | none => false
  | some n => (lo ≤ n) && (n ≤ hi)

/-- Validity of the rating field of CreateCafeForm (forms.py 11 to 13):
the chain DataRequired then NumberRange(1, 10). -/
def rating_valid (r : Option Int) : Bool :=
  dataRequiredInt r && numberRange 1 10 r

/-- Embeds the WTForms URL validator on img_url (forms.py 15) abstractly:
a regexp requiring a scheme and host; modelled as an http or https scheme
prefix. No claim depends on the exact boundary of URL well-formedness. -/
def urlValid (s : String) : Bool :=
  "http://".data.isPrefixOf s.data || "https://".data.isPrefixOf s.data

/-- The data of a submitted CreateCafeForm (forms.py 8 to 16). The declared
fields are exactly name, summary, rating, body, img_url (and the submit
button); the form class declares no contributor_name field. rating is none
when the input fails integer coercion. -/
structure CreateCafeData where
  name : String
  summary : String
  rating : Option Int
  body : String
  img_url : String
deriving DecidableEq

/-- Overall validation of CreateCafeForm: every declared field validator
must pass (forms.py 8 to 16). -/
def CreateCafeData.validate (d : CreateCafeData) : Bool :=
  dataRequiredStr d.name && dataRequiredStr d.summary &&
  rating_valid d.rating && dataRequiredStr d.body && urlValid d.img_url

/-- Embeds the attribute read form.contributor_name (main.py 220 and 250).
CreateCafeForm (forms.py 8 to 16) declares no field or attribute named
contributor_name, and neither WTForms Form nor FlaskForm defines a
fallback getattr, so in Python this lookup raises AttributeError on every
form instance. -/
def CreateCafeData.contributor_name_attr (_ : CreateCafeData) :
    Except PyError String :=
  .error (.attributeError "contributor_name")

/-- The data of a submitted CommentForm (forms.py 35 to 37): one
comment_text field. -/
structure CommentForm where
  comment_text : String
deriving DecidableEq

/-- Validation of CommentForm: DataRequired on comment_text. -/
def CommentForm.validate (f : CommentForm) : Bool :=
  dataRequiredStr f.comment_text

/-- Next autoincrement primary key for the comments table. -/
def DB.nextCommentId (db : DB) : Nat :=
  db.comments.foldl (fun a m => max a m.id) 0 + 1

/-- Next autoincrement primary key for the cafelist table. -/
def DB.nextCafeId (db : DB) : Nat :=
  db.cafes.foldl (fun a c => max a c.id) 0 + 1

/-- Look up a cafe row by primary key, as db.get_or_404(Cafe, cafe_id)
and Cafe.query.get_or_404(cafe_id) do. -/
def DB.findCafe (db : DB) (cafe_id : Nat) : Option Cafe :=
  db.cafes.find? (fun c => c.id == cafe_id)

/-- Outcome of the show_cafe route (main.py 193 to 211). -/
inductive ShowCafeResult where
  | notFound404
  | redirectLogin
  | renderCafe
deriving DecidableEq

/-- Embeds show_cafe (main.py 193 to 211). get_or_404 first; then, when a
comment form was submitted and validates, an anonymous session is
redirected to login (the submitted text is dropped); an authenticated
session gets a new Comment row committed with author_id and cafe_id set
from current_user and the requested cafe; otherwise the page is rendered
with no store change. sub is none for a GET (no submission). -/
def show_cafe (db : DB) (cu : CurrentUser) (cafe_id : Nat)
    (sub : Option CommentForm) : ShowCafeResult × DB :=
  match db.findCafe cafe_id with
  | none => (.notFound404, db)
  | some cafe =>
    match sub with
    | none => (.renderCafe, db)
    | some f =>
      if f.validate then
        match cu with
        | .anonymous => (.redirectLogin, db)
        | .user u =>
          (.renderCafe,
           { db with comments := db.comments ++
              [⟨db.nextCommentId, f.comment_text, some u.id, some cafe.id⟩] })
      else (.renderCafe, db)

/-- Outcome of the add_new_cafe route (main.py 215 to 233). serverError
is an unhandled Python exception escaping the handler (HTTP 500). -/
inductive AddCafeResult where
  | redirectLoginRequired
  | renderForm
  | serverError (e : PyError)
  | redirectCafelist
deriving DecidableEq

/-- The Cafe row constructed at main.py 221 to 229: the keyword arguments
are name, summary, body, img_url, contributor_name, date and rating only;
no contributor or contributor_id is passed, so the foreign key column is
left NULL. -/
def new_cafe_record (db : DB) (d : CreateCafeData)
    (contributor_name today : String) : Cafe :=
  { id := db.nextCafeId
    contributor_id := none
    contributor_name := some contributor_name
    name := d.name
    summary := d.summary
    date := today
    body := d.body
    img_url := some d.img_url
    rating := d.rating.getD 0 }

/-- Embeds add_new_cafe (main.py 215 to 233). login_required redirects an
anonymous session to login. On a validated submission the handler first
evaluates form.contributor_name.data or current_user.name (line 220); the
attribute read raises, so the construction and commit at lines 221 to 231
are never reached and the error escapes as a server error. The branch
below the attribute read mirrors those lines for completeness (Python or
falls back to the user name on falsy, i.e. empty, data). -/
def add_new_cafe (db : DB) (cu : CurrentUser) (form : Option CreateCafeData)
    (today : String) : AddCafeResult × DB :=
  match cu with
  | .anonymous => (.redirectLoginRequired, db)
  | .user u =>
    match form with
    | none => (.renderForm, db)
    | some d =>
      if d.validate then
        match d.contributor_name_attr with
        | .error e => (.serverError e, db)
        | .ok s =>
          let contributor_name := if s = "" then u.name else s
          (.redirectCafelist,
           { db with cafes := db.cafes ++ [new_cafe_record db d contributor_name today] })
      else (.renderForm, db)

/-- Outcome of the edit_cafe route (main.py 237 to 259). -/
inductive EditCafeResult where
  | redirectLoginRequired
  | notFound404
  | renderForm
  | serverError (e : PyError)
  | redirectShowCafe (cafe_id : Nat)
deriving DecidableEq

/-- The field overwrite performed at main.py 251 to 256: name, summary,
img_url, contributor_name, body and rating are replaced; id,
contributor_id, contributor_name source link and date are untouched. -/
def Cafe.overwrite (c : Cafe) (d : CreateCafeData) (contributor_name : String) : Cafe :=
  { c with
    name := d.name
    summary := d.summary
    img_url := some d.img_url
    contributor_name := some contributor_name
    body := d.body
    rating := d.rating.getD 0 }

/-- Embeds edit_cafe (main.py 237 to 259). The route is wired with
login_required only: no ownership or admin decorator. get_or_404 on the
cafe id; on a validated submission the handler first evaluates
edit_form.contributor_name.data or current_user.name (line 250); the
attribute read raises before any field assignment or commit, and the
error escapes as a server error. The branch below the attribute read
mirrors lines 251 to 258 for completeness. -/
def edit_cafe (db : DB) (cu : CurrentUser) (cafe_id : Nat)
    (form : Option CreateCafeData) : EditCafeResult × DB :=
  match cu with
  | .anonymous => (.redirectLoginRequired, db)
  | .user u =>
    match db.findCafe cafe_id with
    | none => (.notFound404, db)
    | some cafe =>
      match form with
      | none => (.renderForm, db)
      | some d =>
        if d.validate then
          match d.contributor_name_attr with
          | .error e => (.serverError e, db)
          | .ok s =>
            let contributor_name := if s = "" then u.name else s
            (.redirectShowCafe cafe.id,
             { db with cafes := db.cafes.map (fun c =>
                 if c.id = cafe.id then c.overwrite d contributor_name else c) })
        else (.renderForm, db)

/-- Outcome of the delete_cafe route (main.py 263 to 269). -/
inductive DeleteResult where
  | forbidden403
  | notFound404
  | serverError (e : PyError)
  | redirectCafelist
deriving DecidableEq

/-- Embeds delete_cafe (main.py 263 to 269) behind admin_only. On the allow
path the row is deleted and committed. The comments relationship
(main.py 62, 90) is configured with no delete cascade, so SQLAlchemy
applies its default save-update, merge cascade on parent deletion:
dependent Comment rows are dissociated by setting their nullable cafe_id
foreign key to NULL, and the rows themselves are kept. -/
def delete_cafe (db : DB) (cu : CurrentUser) (cafe_id : Nat) :
    DeleteResult × DB :=
  match admin_only_check cu with
  | .error e => (.serverError e, db)
  | .ok .forbidden403 => (.forbidden403, db)
  | .ok .allow =>
    match db.findCafe cafe_id with
    | none => (.notFound404, db)
    | some _ =>
      (.redirectCafelist,
       { db with
         cafes := db.cafes.filter (fun c => c.id != cafe_id)
         comments := db.comments.map (fun m =>
           if m.cafe_id = some cafe_id then { m with cafe_id := none } else m) })

/-- A transport-level failure of the outbound SMTP session
(connection, STARTTLS or login, or message submission). -/
inductive SmtpError where
  | connectError
  | authError
  | sendError
deriving DecidableEq

/-- Outcome of the contact route (main.py 282 to 288). serverError is an
unhandled SMTP exception escaping the handler. -/
inductive ContactResult where
  | renderSent
  | renderFormPage
  | serverError (e : SmtpError)
deriving DecidableEq

/-- Embeds send_email (main.py 293 to 298): the SMTP transaction is
performed with no exception handling, so the outcome of the transport
(modelled as the relay parameter, since it is decided by the external
mail server) is returned to the caller unchanged; in particular a
transport failure propagates as an exception. -/
def send_email (relay : Except SmtpError Unit) : Except SmtpError Unit :=
  relay

/-- Embeds contact (main.py 282 to 288): on POST it calls send_email and,
if that returns, renders the page with msg_sent True; there is no
try or except around the call, so a transport failure escapes the
handler and the confirmation is not rendered. On GET it renders the page
with msg_sent False. -/
def contact (isPost : Bool) (relay : Except SmtpError Unit) : ContactResult :=
  if isPost then
    match send_email relay with
    | .error e => .serverError e
    | .ok _ => .renderSent
  else .renderFormPage

/-- Test fixture: the first-registered user, primary key 1 (the
super-admin of the admin_only check). -/
def adminUser : User := ⟨1, "admin@x.com", "hash0", "Admin"⟩

/-- Test fixture: a second registered user, primary key 2. -/
def alice : User := ⟨2, "a@x.com", "hash1", "Alice"⟩

/-- Test fixture: a cafe row contributed by the super-admin. -/
def cafe1 : Cafe :=
  ⟨1, some 1, some "Admin", "Joes", "Nice place", "May 01, 2024",
   "Good coffee", some "http://img.example/1", 7⟩

/-- Test fixture: a store with two users, one cafe and one comment
attached to that cafe. -/
def db0 : DB :=
  ⟨[adminUser, alice], [cafe1], [⟨1, "great", some 2, some 1⟩]⟩

/-- Test fixture: a creation form submission that passes every declared
validator. -/
def validCreate : CreateCafeData :=
  ⟨"New Cafe", "Cozy", some 8, "Lovely spot", "http://img.example/2"⟩

/-- Test fixture: an edit form submission that passes every declared
validator. -/
def validEdit : CreateCafeData :=
  ⟨"Joes Updated", "Even nicer", some 9, "Better coffee", "http://img.example/3"⟩

/-- Test fixture: a creation form submission whose rating is out of
range. -/
def badRatingCreate : CreateCafeData :=
  ⟨"New Cafe", "Cozy", some 11, "Lovely spot", "http://img.example/2"⟩

/-- Test fixture: a valid comment form submission. -/
def validComment : CommentForm := ⟨"nice place"⟩

/-- C1: the entry-edit authorization check (user_can_edit_cafe) permits the
action exactly when the acting user is simultaneously the contributor of
the entry and the super-admin with identifier 1; every acting user who is
not both at once receives HTTP 403 forbidden. -/
theorem C1_edit_check_requires_contributor_and_superadmin
    (cu : CurrentUser) (contributor : Option User) :
    (user_can_edit_cafe_check cu contributor = .ok .allow ↔
      (∃ u v, cu = .user u ∧ contributor = some v ∧ v.id = u.id ∧ u.id = 1)) ∧
    ((¬ ∃ u v, cu = .user u ∧ contributor = some v ∧ v.id = u.id ∧ u.id = 1) →
      user_can_edit_cafe_check cu contributor = .ok .forbidden403) := by
  cases cu with
  | anonymous =>
    have hc : user_can_edit_cafe_check .anonymous contributor = .ok .forbidden403 := by
      simp [user_can_edit_cafe_check, CurrentUser.eqContributor]
    refine ⟨⟨fun h => ?_, fun h => ?_⟩, fun _ => hc⟩
    · rw [hc] at h; exact absurd h (by simp)
    · obtain ⟨u, v, hu, -⟩ := h; exact absurd hu (by simp)
  | user u =>
    cases contributor with
    | none =>
      have hc : user_can_edit_cafe_check (.user u) none = .ok .forbidden403 := by
        simp [user_can_edit_cafe_check, CurrentUser.eqContributor]
      refine ⟨⟨fun h => ?_, fun h => ?_⟩, fun _ => hc⟩
      · rw [hc] at h; exact absurd h (by simp)
      · obtain ⟨u2, v, -, hv, -⟩ := h; exact absurd hv (by simp)
    | some v =>
      by_cases hid : u.id = v.id
      · by_cases h1 : u.id = 1
        · have hc : user_can_edit_cafe_check (.user u) (some v) = .ok .allow := by
            simp [user_can_edit_cafe_check, CurrentUser.eqContributor,
              CurrentUser.id_attr, hid, h1]
            omega
          refine ⟨⟨fun _ => ⟨u, v, rfl, rfl, hid.symm, h1⟩, fun _ => hc⟩,
            fun hn => absurd ⟨u, v, rfl, rfl, hid.symm, h1⟩ hn⟩
        · have hc : user_can_edit_cafe_check (.user u) (some v) = .ok .forbidden403 := by
            simp [user_can_edit_cafe_check, CurrentUser.eqContributor,
              CurrentUser.id_attr, hid, h1]
            omega
          refine ⟨⟨fun h => ?_, fun h => ?_⟩, fun _ => hc⟩
          · rw [hc] at h; exact absurd h (by simp)
          · obtain ⟨u2, v2, hu, hv, hvi, h1e⟩ := h
            injection hu with hu
            injection hv with hv
            subst hu; subst hv
            exact absurd h1e h1
      · have hc : user_can_edit_cafe_check (.user u) (some v) = .ok .forbidden403 := by
          simp [user_can_edit_cafe_check, CurrentUser.eqContributor, hid]
        refine ⟨⟨fun h => ?_, fun h => ?_⟩, fun _ => hc⟩
        · rw [hc] at h; exact absurd h (by simp)
        · obtain ⟨u2, v2, hu, hv, hvi, h1e⟩ := h
          injection hu with hu
          injection hv with hv
          subst hu; subst hv
          exact absurd hvi.symm hid

/-- C1 witness: the user with identifier 2, acting on an entry contributed
by the super-admin, is not both contributor and super-admin and receives
403. -/
theorem C1_witness :
    user_can_edit_cafe_check (.user alice) (some adminUser) = .ok .forbidden403 := by
  apply (C1_edit_check_requires_contributor_and_superadmin
    (.user alice) (some adminUser)).2
  rintro ⟨u, v, hu, hv, hvi, h1⟩
  injection hu with hu
  injection hv with hv
  subst hu; subst hv
  exact absurd hvi (by decide)

/-- C2: evaluation at the failing input. The authenticated user with
identifier 2 (neither contributor nor super-admin) reaches the edit handler
of the existing entry 1 (no forbidden response exists on this route), but
the valid submission raises AttributeError reading form.contributor_name,
a field CreateCafeForm does not declare, so the mutable fields are not
overwritten and the store is unchanged. -/
theorem C2_edit_crashes_before_overwrite :
    edit_cafe db0 (.user alice) 1 (some validEdit) =
      (.serverError (.attributeError "contributor_name"), db0) := by decide

/-- C3: an anonymous comment submission never persists a Comment: the store
is unchanged for every submission, and a valid submission on an existing
entry is answered with a redirect to the login page (the text is
discarded). -/
theorem C3_anonymous_comment_never_persisted
    (db : DB) (cafe_id : Nat) (sub : Option CommentForm) :
    (show_cafe db .anonymous cafe_id sub).2 = db ∧
    (∀ f, sub = some f → f.validate = true → (db.findCafe cafe_id).isSome = true →
      (show_cafe db .anonymous cafe_id sub).1 = .redirectLogin) := by
  unfold show_cafe
  cases hfind : db.findCafe cafe_id with
  | none => simp
  | some c =>
    cases sub with
    | none => simp
    | some f =>
      by_cases hv : f.validate = true
      · simp [hv]
      · simp [hv]

/-- C3 witness: a concrete anonymous valid submission on the existing
entry 1 leaves the store unchanged and yields the login redirect. -/
theorem C3_witness :
    (show_cafe db0 .anonymous 1 (some validComment)).2 = db0 ∧
    (show_cafe db0 .anonymous 1 (some validComment)).1 = .redirectLogin := by
  refine ⟨(C3_anonymous_comment_never_persisted db0 1 (some validComment)).1, ?_⟩
  exact (C3_anonymous_comment_never_persisted db0 1 (some validComment)).2
    validComment rfl (by decide) (by decide)

/-- C4: a submitted creation form whose rating fails validation is rejected
before anything is persisted (the form page is re-rendered and the store
is unchanged); at the boundaries, ratings 0 and 11 are rejected while 1
and 10 pass the rating validator. -/
theorem C4_rating_range_validation
    (db : DB) (u : User) (d : CreateCafeData) (today : String)
    (h : rating_valid d.rating = false) :
    add_new_cafe db (.user u) (some d) today = (.renderForm, db) ∧
    rating_valid (some 0) = false ∧ rating_valid (some 11) = false ∧
    rating_valid (some 1) = true ∧ rating_valid (some 10) = true := by
  refine ⟨?_, by decide, by decide, by decide, by decide⟩
  have hv : d.validate = false := by
    unfold CreateCafeData.validate
    simp [h]
  unfold add_new_cafe
  simp [hv]

/-- C4 witness: a concrete submission with rating 11 is re-rendered and
the store of the fixture is unchanged. -/
theorem C4_witness :
    add_new_cafe db0 (.user alice) (some badRatingCreate) "May 02, 2024" =
      (.renderForm, db0) ∧
    rating_valid (some 0) = false ∧ rating_valid (some 11) = false ∧
    rating_valid (some 1) = true ∧ rating_valid (some 10) = true :=
  C4_rating_range_validation db0 alice badRatingCreate "May 02, 2024" (by decide)

/-- C5: an authenticated acting user whose identifier is not 1 receives
403 forbidden from the delete route and the store is unchanged: no
deletion is performed. -/
theorem C5_delete_forbidden_for_non_superadmin
    (db : DB) (u : User) (cafe_id : Nat) (h : u.id ≠ 1) :
    delete_cafe db (.user u) cafe_id = (.forbidden403, db) := by
  unfold delete_cafe admin_only_check CurrentUser.id_attr
  simp [h]

/-- C5 witness: the user with identifier 2 requesting deletion of entry 1
gets 403 and the fixture store is unchanged. -/
theorem C5_witness :
    delete_cafe db0 (.user alice) 1 = (.forbidden403, db0) :=
  C5_delete_forbidden_for_non_superadmin db0 alice 1 (by decide)

/-- C6: evaluation at the failing input. A valid creation submission by an
authenticated user never reaches the defaulting of the contributor display
name: the handler raises AttributeError reading form.contributor_name,
a field CreateCafeForm does not declare, so no entry is persisted and the
store is unchanged. -/
theorem C6_create_crashes_reading_contributor_name :
    add_new_cafe db0 (.user alice) (some validCreate) "May 02, 2024" =
      (.serverError (.attributeError "contributor_name"), db0) := by decide

/-- C7 counterexample: a contact POST whose SMTP transaction fails does
not render the sent confirmation; the failure escapes the handler. -/
theorem C7_counterexample :
    contact true (.error .connectError) ≠ .renderSent ∧
    contact true (.error .connectError) = .serverError .connectError :=
  ⟨by decide, rfl⟩

/-- C7 amended: the contact handler renders the sent confirmation exactly
when the relay succeeds; a transport failure propagates out of the handler
uncaught (a server error), so the confirmation is not rendered on
failure. -/
theorem C7_contact_sent_iff_relay_ok :
    (∀ r, contact true r = .renderSent ↔ r = .ok ()) ∧
    (∀ e, contact true (.error e) = .serverError e) := by
  refine ⟨fun r => ?_, fun e => rfl⟩
  cases r with
  | ok v => cases v; simp [contact, send_email]
  | error e => simp [contact, send_email]

/-- C8: the creation operation never links the entry to the acting user:
the row constructed at main.py 221 to 229 always has a NULL contributor
reference, and the commit is in fact never reached (the handler raises
reading the undeclared contributor_name field first), so no entry is
persisted at all, even for the super-admin. -/
theorem C8_created_entry_contributor_is_null :
    (∀ db d cn today, (new_cafe_record db d cn today).contributor_id = none) ∧
    add_new_cafe db0 (.user adminUser) (some validCreate) "May 02, 2024" =
      (.serverError (.attributeError "contributor_name"), db0) :=
  ⟨fun _ _ _ _ => rfl, by decide⟩

/-- C9 counterexample: the super-admin check on an anonymous session does
not respond 403 forbidden; it raises AttributeError reading
current_user.id, which the anonymous user object does not have. -/
theorem C9_counterexample :
    admin_only_check .anonymous ≠ .ok .forbidden403 ∧
    admin_only_check .anonymous = .error (.attributeError "id") := by
  refine ⟨?_, rfl⟩
  intro h
  exact nomatch h

/-- C9 amended: neither check ever grants access to an anonymous session.
The entry-edit check responds 403 (the contributor comparison
short-circuits before the identifier is read), while the super-admin check
raises AttributeError, so the guarded delete never runs and the store is
unchanged, but its response is an unhandled server error rather than
403. -/
theorem C9_checks_never_grant_anonymous :
    (∀ contributor, user_can_edit_cafe_check .anonymous contributor = .ok .forbidden403) ∧
    admin_only_check .anonymous = .error (.attributeError "id") ∧
    (∀ db cafe_id, delete_cafe db .anonymous cafe_id =
      (.serverError (.attributeError "id"), db)) := by
  refine ⟨fun contributor => ?_, rfl, fun db cafe_id => rfl⟩
  simp [user_can_edit_cafe_check, CurrentUser.eqContributor]

/-- C10: deletion of an existing entry by the super-admin removes the entry
but deletes no dependent Comment: every previously attached comment
remains in the store with its parent-entry reference nulled, and the
comments table keeps its length. -/
theorem C10_delete_orphans_comments
    (db : DB) (u : User) (cafe_id : Nat) (h1 : u.id = 1)
    (h2 : (db.findCafe cafe_id).isSome = true) :
    (∀ m ∈ db.comments, m.cafe_id = some cafe_id →
        { m with cafe_id := none } ∈ (delete_cafe db (.user u) cafe_id).2.comments) ∧
    (delete_cafe db (.user u) cafe_id).2.comments.length = db.comments.length ∧
    (∀ c ∈ (delete_cafe db (.user u) cafe_id).2.cafes, c.id ≠ cafe_id) := by
  obtain ⟨cafe, hc⟩ := Option.isSome_iff_exists.mp h2
  have hres : (delete_cafe db (.user u) cafe_id).2 =
      { db with
        cafes := db.cafes.filter (fun c => c.id != cafe_id)
        comments := db.comments.map (fun m =>
          if m.cafe_id = some cafe_id then { m with cafe_id := none } else m) } := by
    unfold delete_cafe admin_only_check CurrentUser.id_attr
    simp [h1, hc]
  refine ⟨fun m hm hmc => ?_, ?_, fun c hcf => ?_⟩
  · rw [hres]
    have heq : (if m.cafe_id = some cafe_id then { m with cafe_id := none } else m) =
        { m with cafe_id := none } := if_pos hmc
    rw [← heq]
    exact List.mem_map_of_mem _ hm
  · rw [hres]
    exact List.length_map _ _
  · rw [hres] at hcf
    simp only [List.mem_filter, bne_iff_ne, ne_eq] at hcf
    exact hcf.2

/-- C10 witness: the super-admin deletes entry 1 of the fixture store; the
previously attached comment remains, orphaned, and the comment count is
unchanged. -/
theorem C10_witness :
    (⟨1, "great", some 2, (none : Option Nat)⟩ : Comment) ∈
      (delete_cafe db0 (.user adminUser) 1).2.comments ∧
    (delete_cafe db0 (.user adminUser) 1).2.comments.length =
      db0.comments.length := by
  refine ⟨?_, (C10_delete_orphans_comments db0 adminUser 1 rfl (by decide)).2.1⟩
  exact (C10_delete_orphans_comments db0 adminUser 1 rfl (by decide)).1
    ⟨1, "great", some 2, some 1⟩ (by decide) rfl

end CafeSite
